import Mathlib

/-!
# Verification of the hospital event check-in application

A shallow embedding of the registration / attendance check-in application:
the `participants` and `attendance` tables, the scanner's scan handler
(`handleScannedUUID`, in its current toggle variant and in the earlier
simple variant), and the registration submit handler (`onSubmit`).

Machine integers of the source (`Date.now()` millisecond timestamps) are
modelled as `Nat`; the JavaScript comparisons `now - t < window` agree with
the `Nat`-truncated ones on every branch (a negative JS difference and a
truncated-to-zero `Nat` difference are both below the window, so both
reject).  Database calls are modelled by explicit fault parameters: a call
can return an error object (`...Err`) or throw (`...Throw`); `dbOk` is the
fault-free database.
-/

namespace HospitalCheckin

/-- A row of the `participants` table (migration `20250730003432`):
`id UUID PRIMARY KEY, full_name TEXT NOT NULL, email TEXT NOT NULL,
phone TEXT, organization TEXT, qr_code TEXT NOT NULL, created_at`. -/
structure Participant where
  id : String
  full_name : String
  email : String
  phone : Option String
  organization : Option String
  qr_code : String
  created_at : Nat
deriving DecidableEq

/-- A row of the `attendance` table.  The migration in the repository
creates `id UUID PRIMARY KEY, participant_id UUID REFERENCES participants,
timestamp` (the check-in time).  The `check_out` column is Modelled from
the spec: the migration adding it is not under `src/` (only the toggle
scanner that reads and writes `check_out` is); the spec's data model gives
an Attendance Record an "optional check-out timestamp (later variant
only)". -/
structure AttendanceRecord where
  id : String
  participant_id : String
  timestamp : Nat
  check_out : Option Nat
deriving DecidableEq

/-- The two tables of the participant store. -/
structure Store where
  participants : List Participant
  attendance : List AttendanceRecord
deriving DecidableEq

/-- The scanner component's mutable state: the `isProcessing` re-entrancy
flag, the `scanSuccess` indicator, the global `lastScanTime`, and the
per-participant `lastParticipantScanTime` map (an association list keyed
by participant id). -/
structure ScanState where
  isProcessing : Bool
  scanSuccess : Bool
  lastScanTime : Nat
  lastParticipantScanTime : List (String × Nat)
deriving DecidableEq

/-- The scanner's initial state: `useState(false)`, `useState(false)`,
`useState(0)`, `useState({})`. -/
def initialScanState : ScanState :=
  { isProcessing := false, scanSuccess := false, lastScanTime := 0,
    lastParticipantScanTime := [] }

/-- Fault injection for the database calls of one handler run: each call
site can return an error object (`Err`, the destructured `error` field) or
throw (`Throw`, landing in the `catch` block). -/
structure Db where
  participantThrow : Bool
  participantErr : Bool
  latestThrow : Bool
  latestErr : Bool
  updateThrow : Bool
  updateErr : Bool
  insertThrow : Bool
  insertErr : Bool
deriving DecidableEq

/-- The fault-free database: every call succeeds. -/
def dbOk : Db :=
  { participantThrow := false, participantErr := false, latestThrow := false,
    latestErr := false, updateThrow := false, updateErr := false,
    insertThrow := false, insertErr := false }

/-- The user-visible outcome of one scan-handler run, identifying which
toast (if any) was shown. -/
inductive ScanOutcome
  /-- Discarded by the `isProcessing` re-entrancy guard; no message. -/
  | discarded
  /-- Silently rejected by the 3-second global cooldown; no message. -/
  | globalCooldown
  /-- Rejected with the "Escaneo Reciente" (recently scanned) warning. -/
  | participantCooldown
  /-- "Código QR Inválido" shown; the attempt time was recorded. -/
  | invalidCode
  /-- The check-out update returned an error; error toast shown. -/
  | checkOutError
  /-- The attendance insert returned an error; error toast shown. -/
  | checkInError
  /-- A thrown error reached the `catch` block; generic error toast. -/
  | genericError
  /-- Success toast: the named participant's entrada was recorded. -/
  | checkedIn (name : String)
  /-- Success toast: the named participant's salida was recorded. -/
  | checkedOut (name : String)
deriving DecidableEq

/-- Holds (is `true`) exactly for the "Escaneo Reciente" (recently scanned) warning. -/
def showsRecentScanWarning : ScanOutcome → Bool
  | .participantCooldown => true
  | _ => false

/-- Holds (is `true`) exactly for the outcomes that show an error-variant toast. -/
def reportsError : ScanOutcome → Bool
  | .invalidCode => true
  | .checkOutError => true
  | .checkInError => true
  | .genericError => true
  | _ => false

/-- The result of one scan-handler run: the store, the component state, and
the toast outcome after the handler (and its `finally` clause) finished. -/
structure ScanResult where
  store : Store
  state : ScanState
  outcome : ScanOutcome
deriving DecidableEq

/-- The query `supabase.from('participants').select('*').eq('id', uuid).single()`:
the participant row with the scanned id, if any. -/
def findParticipant (store : Store) (uuid : String) : Option Participant :=
  store.participants.find? fun p => p.id == uuid

/-- The query `supabase.from('attendance').select('*').eq('participant_id', uuid)
.is('check_out', null)`: the open (no check-out) attendance rows of the
scanned participant, in table order. -/
def openRecords (store : Store) (uuid : String) : List AttendanceRecord :=
  store.attendance.filter fun r => r.participant_id == uuid && r.check_out.isNone

/-- The JavaScript object update `{ ...prev, [uuid]: now }` on the
per-participant scan-time map. -/
def setKey (m : List (String × Nat)) (k : String) (v : Nat) : List (String × Nat) :=
  (k, v) :: m.filter fun p => p.1 != k

/-- The participant-specific cooldown guard
`lastParticipantScanTime[uuid] && now - lastParticipantScanTime[uuid] < 30000`:
a stored time of `0` is falsy in JavaScript, so it passes the guard. -/
def participantCooldownActive (m : List (String × Nat)) (uuid : String) (now : Nat) : Bool :=
  match m.lookup uuid with
  | some t => t != 0 && now - t < 30000
  | none => false

/-- The function `handleScannedUUID` of `src/src/pages/Scanner.tsx` (the current, toggle
variant).  `now` is `Date.now()` at entry; `newId` is the id the database
generates for an inserted attendance row.  The cooldown guards run before
`setIsProcessing(true)`, and every path through the `try` block passes the
`finally { setIsProcessing(false) }` clause, so the returned state always
has `isProcessing = false` when the guards were passed. -/
def handleScannedUUID (db : Db) (store : Store) (s : ScanState)
    (uuid : String) (now : Nat) (newId : String) : ScanResult :=
  if s.isProcessing then ⟨store, s, .discarded⟩
  else if now - s.lastScanTime < 3000 then ⟨store, s, .globalCooldown⟩
  else if participantCooldownActive s.lastParticipantScanTime uuid now then
    ⟨store, s, .participantCooldown⟩
  else
    let sIn : ScanState := { s with isProcessing := false, scanSuccess := false }
    if db.participantThrow then ⟨store, sIn, .genericError⟩
    else
      match findParticipant store uuid with
      | none => ⟨store, { sIn with lastScanTime := now }, .invalidCode⟩
      | some participant =>
        if db.participantErr then ⟨store, { sIn with lastScanTime := now }, .invalidCode⟩
        else if db.latestThrow then ⟨store, sIn, .genericError⟩
        else
          let latest := if db.latestErr then [] else (openRecords store uuid).take 1
          match latest with
          | openRec :: _ =>
            if db.updateThrow then ⟨store, sIn, .genericError⟩
            else if db.updateErr then ⟨store, sIn, .checkOutError⟩
            else
              ⟨{ store with
                  attendance := store.attendance.map fun r =>
                    if r.id == openRec.id then { r with check_out := some now } else r },
               { sIn with
                  lastScanTime := now,
                  lastParticipantScanTime := setKey s.lastParticipantScanTime uuid now,
                  scanSuccess := true },
               .checkedOut participant.full_name⟩
          | [] =>
            if db.insertThrow then ⟨store, sIn, .genericError⟩
            else if db.insertErr then ⟨store, sIn, .checkInError⟩
            else
              ⟨{ store with attendance := store.attendance ++ [⟨newId, uuid, now, none⟩] },
               { sIn with
                  lastScanTime := now,
                  lastParticipantScanTime := setKey s.lastParticipantScanTime uuid now,
                  scanSuccess := true },
               .checkedIn participant.full_name⟩

/-- The function `handleScannedUUID` of the earlier simple-variant scanner (appended in
`src/src/pages/Registration.tsx`, matching `src/unnamed/part_000`): it sets
`setIsProcessing(true)` before the cooldown guards, returns from the two
cooldown rejections without clearing the flag, always inserts (no
check-out), and clears the flag explicitly on every other path. -/
def handleScannedUUIDv1 (db : Db) (store : Store) (s : ScanState)
    (uuid : String) (now : Nat) (newId : String) : ScanResult :=
  if s.isProcessing then ⟨store, s, .discarded⟩
  else
    let s1 : ScanState := { s with isProcessing := true, scanSuccess := false }
    if now - s.lastScanTime < 3000 then ⟨store, s1, .globalCooldown⟩
    else if participantCooldownActive s.lastParticipantScanTime uuid now then
      ⟨store, s1, .participantCooldown⟩
    else if db.participantThrow then
      ⟨store, { s1 with isProcessing := false }, .genericError⟩
    else
      match findParticipant store uuid with
      | none =>
        ⟨store, { s1 with isProcessing := false, lastScanTime := now }, .invalidCode⟩
      | some participant =>
        if db.participantErr then
          ⟨store, { s1 with isProcessing := false, lastScanTime := now }, .invalidCode⟩
        else if db.insertThrow then
          ⟨store, { s1 with isProcessing := false }, .genericError⟩
        else if db.insertErr then
          ⟨store, { s1 with isProcessing := false }, .checkInError⟩
        else
          ⟨{ store with attendance := store.attendance ++ [⟨newId, uuid, now, none⟩] },
           { s1 with
              isProcessing := false,
              lastScanTime := now,
              lastParticipantScanTime := setKey s.lastParticipantScanTime uuid now,
              scanSuccess := true },
           .checkedIn participant.full_name⟩

/-! ## Registration flow (`src/src/pages/Registration.tsx`) -/

/-- The submitted form fields (`RegistrationForm`): `fullName` and `email`
required, `phone` and `organization` optional. -/
structure RegForm where
  fullName : String
  email : String
  phone : Option String
  organization : Option String
deriving DecidableEq

/-- The JavaScript coalescing `data.phone || null`: an absent or empty
(falsy) string becomes `null`. -/
def jsOrNull : Option String → Option String
  | some "" => none
  | o => o

/-- Models the external QR library call `QRCode.toDataURL(participantId)`:
a non-empty data URL determined by the identifier it encodes.  The QR
image library is an external collaborator (out of scope per the spec); only
non-emptiness and the identifier it encodes matter to the claims. -/
def qrToDataURL (participantId : String) : String :=
  "data:image/png;base64," ++ participantId

/-- JavaScript `\S`: not a whitespace character. -/
def jsNonSpace (c : Char) : Bool := !c.isWhitespace

/-- The form's email pattern `/\S+@\S+\.\S+/` (unanchored search): some
`@` preceded by a non-space, followed by one or more non-spaces, a literal
`.`, and a non-space. -/
def emailFormatValid (s : String) : Bool :=
  let cs := s.toList
  let n := cs.length
  (List.range n).any fun j =>
    cs.getD j ' ' == '@' && decide (0 < j) && jsNonSpace (cs.getD (j - 1) ' ') &&
      (List.range n).any fun k =>
        decide (j + 2 ≤ k) && cs.getD k ' ' == '.' && decide (k + 1 < n) &&
          jsNonSpace (cs.getD (k + 1) ' ') &&
          (List.range (k - j - 1)).all fun m => jsNonSpace (cs.getD (j + 1 + m) ' ')

/-- The user-visible outcome of one registration submission. -/
inductive RegOutcome
  /-- Row persisted and email sent: plain success toast. -/
  | fullSuccess
  /-- Row persisted but email failed: success-with-warning toast (default
  variant), registration not failed. -/
  | emailFailWarning
  /-- Database insert failed: thrown, caught, destructive error toast. -/
  | dbFailure
deriving DecidableEq

/-- The result of one `onSubmit` run: the store, the `qrCodeUrl` and
`participantData` component state shown to the user, the toast outcome, and
whether the toast used the destructive (error) variant. -/
structure RegResult where
  store : Store
  qrCodeUrl : Option String
  participantData : Option Participant
  outcome : RegOutcome
  toastDestructive : Bool
deriving DecidableEq

/-- The function `onSubmit` of `src/src/pages/Registration.tsx`: generate a fresh id
(`crypto.randomUUID()`, the `participantId` argument), render the QR data
URL, insert the participant row, then request email delivery; an email
error is downgraded to a warning and the QR code and participant are still
shown; a database error aborts with a destructive toast and nothing is
shown.  `dbInsertOk` and `emailOk` are the outcomes of the two external
calls; `now` is the row's `created_at` database default. -/
def onSubmit (store : Store) (form : RegForm) (participantId : String)
    (now : Nat) (dbInsertOk : Bool) (emailOk : Bool) : RegResult :=
  let qrCodeDataUrl := qrToDataURL participantId
  if !dbInsertOk then
    { store := store, qrCodeUrl := none, participantData := none,
      outcome := .dbFailure, toastDestructive := true }
  else
    let participant : Participant :=
      { id := participantId, full_name := form.fullName, email := form.email,
        phone := jsOrNull form.phone, organization := jsOrNull form.organization,
        qr_code := qrCodeDataUrl, created_at := now }
    let store' := { store with participants := store.participants ++ [participant] }
    if !emailOk then
      { store := store', qrCodeUrl := some qrCodeDataUrl,
        participantData := some participant, outcome := .emailFailWarning,
        toastDestructive := false }
    else
      { store := store', qrCodeUrl := some qrCodeDataUrl,
        participantData := some participant, outcome := .fullSuccess,
        toastDestructive := false }

/-! ## The open-record invariant (toggle variant) -/

/-- Two attendance rows conflict when both are open (no check-out) and name
the same participant. -/
def openConflict (a b : AttendanceRecord) : Prop :=
  a.check_out = none ∧ b.check_out = none ∧ a.participant_id = b.participant_id

instance : DecidablePred fun p : AttendanceRecord × AttendanceRecord =>
    openConflict p.1 p.2 := fun _ => by
  unfold openConflict; infer_instance

instance (a b : AttendanceRecord) : Decidable (openConflict a b) := by
  unfold openConflict; infer_instance

/-- The spec's toggle-variant invariant: at most one open (no check-out)
attendance row per participant — no two rows of the table conflict. -/
def AtMostOneOpen (store : Store) : Prop :=
  store.attendance.Pairwise fun a b => ¬ openConflict a b

instance (store : Store) : Decidable (AtMostOneOpen store) :=
  List.instDecidablePairwise _

/-! ## Single-fault injection for the error-handling claims -/

/-- One database fault: which of the scan handler's calls fails, and how
(returned error object vs thrown exception). -/
inductive DbFault
  /-- The participant validation query throws. -/
  | pThrow
  /-- The participant validation query returns an error object. -/
  | pErr
  /-- The open-record query throws. -/
  | lThrow
  /-- The check-out update throws. -/
  | uThrow
  /-- The check-out update returns an error object. -/
  | uErr
  /-- The attendance insert throws. -/
  | iThrow
  /-- The attendance insert returns an error object. -/
  | iErr
deriving DecidableEq

/-- The database behaviour with exactly the given fault. -/
def injectFault : DbFault → Db
  | .pThrow => { dbOk with participantThrow := true }
  | .pErr => { dbOk with participantErr := true }
  | .lThrow => { dbOk with latestThrow := true }
  | .uThrow => { dbOk with updateThrow := true }
  | .uErr => { dbOk with updateErr := true }
  | .iThrow => { dbOk with insertThrow := true }
  | .iErr => { dbOk with insertErr := true }

/-- When a scan of `uuid` that passed the cooldown guards actually reaches
the faulty call: the validation query always runs; the update runs only for
a registered participant with an open record; the insert only for a
registered participant without one. -/
def faultReached (store : Store) (uuid : String) : DbFault → Prop
  | .pThrow => True
  | .pErr => True
  | .lThrow => (findParticipant store uuid).isSome = true
  | .uThrow => (findParticipant store uuid).isSome = true ∧ openRecords store uuid ≠ []
  | .uErr => (findParticipant store uuid).isSome = true ∧ openRecords store uuid ≠ []
  | .iThrow => (findParticipant store uuid).isSome = true ∧ openRecords store uuid = []
  | .iErr => (findParticipant store uuid).isSome = true ∧ openRecords store uuid = []

instance (store : Store) (uuid : String) (fault : DbFault) :
    Decidable (faultReached store uuid fault) := by
  cases fault <;> (unfold faultReached; infer_instance)

/-! ## Helper lemmas -/

/-- Looking up the key just written by the object update finds the new
value. -/
theorem lookup_setKey_self (m : List (String × Nat)) (k : String) (v : Nat) :
    (setKey m k v).lookup k = some v := by
  simp [setKey, List.lookup]

/-- Closing attendance rows by id (the check-out update) can only lose
open-record conflicts, never create them. -/
theorem atMostOneOpen_close (store : Store) (rid : String) (now : Nat)
    (hinv : AtMostOneOpen store) :
    AtMostOneOpen { store with
      attendance := store.attendance.map fun r =>
        if r.id == rid then { r with check_out := some now } else r } := by
  unfold AtMostOneOpen at hinv ⊢
  refine List.Pairwise.map _ ?_ hinv
  intro a b hnc hc
  apply hnc
  by_cases hA : (a.id == rid) = true
  · rcases hc with ⟨ha, -, -⟩
    simp [hA] at ha
  · by_cases hB : (b.id == rid) = true
    · rcases hc with ⟨-, hb, -⟩
      simp [hB] at hb
    · simpa [openConflict, hA, hB] using hc

/-- Appending a fresh open row for a participant who has no open row
preserves the at-most-one-open invariant. -/
theorem atMostOneOpen_insert (store : Store) (uuid newId : String) (now : Nat)
    (hinv : AtMostOneOpen store) (hopen : openRecords store uuid = []) :
    AtMostOneOpen { store with
      attendance := store.attendance ++ [⟨newId, uuid, now, none⟩] } := by
  unfold AtMostOneOpen at hinv ⊢
  rw [List.pairwise_append]
  refine ⟨hinv, by simp, ?_⟩
  intro a ha b hb
  simp only [List.mem_singleton] at hb
  subst hb
  rintro ⟨hao, -, hp⟩
  have hmem : a ∈ openRecords store uuid := by
    unfold openRecords
    rw [List.mem_filter]
    exact ⟨ha, by simp [hao, hp]⟩
  rw [hopen] at hmem
  simp at hmem

/-- When the open rows of `uuid` are `rec0 :: t` and row ids are distinct,
closing the rows whose id is `rec0.id` removes exactly `rec0` from the open
rows: the remainder is `t`. -/
theorem filter_close_head (uuid : String) (now : Nat) (rec0 : AttendanceRecord) :
    ∀ l t : List AttendanceRecord,
      (l.map fun r => r.id).Nodup →
      l.filter (fun r => r.participant_id == uuid && r.check_out.isNone) = rec0 :: t →
      (l.map fun r =>
          if r.id == rec0.id then { r with check_out := some now } else r).filter
        (fun r => r.participant_id == uuid && r.check_out.isNone) = t := by
  intro l
  induction l with
  | nil =>
    intro t hnd hf
    simp at hf
  | cons a l ih =>
    intro t hnd hf
    simp only [List.map_cons, List.nodup_cons] at hnd
    obtain ⟨hni, hndl⟩ := hnd
    by_cases hpa : (a.participant_id == uuid && a.check_out.isNone) = true
    · rw [List.filter_cons, if_pos hpa] at hf
      obtain ⟨h1, h2⟩ := List.cons.inj hf
      subst h1
      rw [List.map_cons]
      have hfa : (if a.id == a.id then { a with check_out := some now } else a)
          = { a with check_out := some now } := by simp
      rw [hfa, List.filter_cons, if_neg (by simp)]
      have hmap : (l.map fun r =>
          if r.id == a.id then { r with check_out := some now } else r) = l := by
        have := List.map_congr_left (l := l)
          (f := fun r : AttendanceRecord =>
            if r.id == a.id then { r with check_out := some now } else r)
          (g := id) ?_
        · simpa using this
        · intro x hx
          have hne : x.id ≠ a.id := fun h => hni (by
            rw [← h]
            exact List.mem_map_of_mem _ hx)
          simp [hne]
      rw [hmap]
      exact h2
    · rw [List.filter_cons, if_neg hpa] at hf
      have hmem : rec0 ∈ l :=
        List.mem_of_mem_filter (hf ▸ List.mem_cons_self rec0 t)
      have hane : a.id ≠ rec0.id := fun h => hni (by
        rw [h]
        exact List.mem_map_of_mem _ hmem)
      rw [List.map_cons]
      have hfa : (if a.id == rec0.id then { a with check_out := some now } else a)
          = a := by simp [hane]
      rw [hfa, List.filter_cons, if_neg hpa]
      exact ih t hndl hf

/-- C1: scanning a payload that matches no participant identifier creates
no attendance record: the store is left unchanged (in particular the
attendance table), the scanner reports the invalid-code message, the
attempt time is recorded as the global cooldown timestamp, and the
per-participant cooldown map is untouched. -/
theorem c1_unknown_scan_no_record (store : Store) (s : ScanState)
    (uuid : String) (now : Nat) (newId : String)
    (hnf : findParticipant store uuid = none)
    (hproc : s.isProcessing = false)
    (hglobal : ¬ (now - s.lastScanTime < 3000))
    (hpart : participantCooldownActive s.lastParticipantScanTime uuid now = false) :
    (handleScannedUUID dbOk store s uuid now newId).store = store ∧
    (handleScannedUUID dbOk store s uuid now newId).outcome = ScanOutcome.invalidCode ∧
    (handleScannedUUID dbOk store s uuid now newId).state.lastScanTime = now ∧
    (handleScannedUUID dbOk store s uuid now newId).state.lastParticipantScanTime
      = s.lastParticipantScanTime := by
  simp [handleScannedUUID, hproc, hglobal, hpart, hnf, dbOk]

/-- Witness for C1 at a concrete input: an empty store and the identifier
`nope`. -/
theorem c1_unknown_scan_no_record_witness :
    (findParticipant ⟨[], []⟩ "nope" = none ∧
      initialScanState.isProcessing = false ∧
      ¬ (5000 - initialScanState.lastScanTime < 3000) ∧
      participantCooldownActive initialScanState.lastParticipantScanTime "nope" 5000
        = false) ∧
    ((handleScannedUUID dbOk ⟨[], []⟩ initialScanState "nope" 5000 "n").store = ⟨[], []⟩ ∧
      (handleScannedUUID dbOk ⟨[], []⟩ initialScanState "nope" 5000 "n").outcome
        = ScanOutcome.invalidCode ∧
      (handleScannedUUID dbOk ⟨[], []⟩ initialScanState "nope" 5000 "n").state.lastScanTime
        = 5000 ∧
      (handleScannedUUID dbOk ⟨[], []⟩ initialScanState
          "nope" 5000 "n").state.lastParticipantScanTime
        = initialScanState.lastParticipantScanTime) :=
  ⟨⟨by decide, by decide, by decide, by decide⟩,
    c1_unknown_scan_no_record ⟨[], []⟩ initialScanState "nope" 5000 "n"
      (by decide) (by decide) (by decide) (by decide)⟩

/-- C9: a scan rejected by either cooldown check leaves the whole cooldown
state unchanged — the global last-scan time, the per-participant map, and
for good measure the store — so the windows are measured from the last
accepted scan. -/
theorem c9_cooldown_rejection_frame (store : Store) (s : ScanState)
    (uuid : String) (now : Nat) (newId : String)
    (hproc : s.isProcessing = false)
    (hrej : now - s.lastScanTime < 3000 ∨
      participantCooldownActive s.lastParticipantScanTime uuid now = true) :
    (handleScannedUUID dbOk store s uuid now newId).store = store ∧
    (handleScannedUUID dbOk store s uuid now newId).state.lastScanTime
      = s.lastScanTime ∧
    (handleScannedUUID dbOk store s uuid now newId).state.lastParticipantScanTime
      = s.lastParticipantScanTime ∧
    ((handleScannedUUID dbOk store s uuid now newId).outcome = ScanOutcome.globalCooldown ∨
      (handleScannedUUID dbOk store s uuid now newId).outcome
        = ScanOutcome.participantCooldown) := by
  by_cases hglobal : now - s.lastScanTime < 3000
  · simp [handleScannedUUID, hproc, hglobal]
  · rcases hrej with hrej | hrej
    · exact absurd hrej hglobal
    · simp [handleScannedUUID, hproc, hglobal, hrej]

/-- Witness for C9 at a concrete input: a second scan of `p1` 1 second
after an accepted one is inside the global window. -/
theorem c9_cooldown_rejection_frame_witness :
    (({ initialScanState with
          lastScanTime := 5000,
          lastParticipantScanTime := [("p1", 5000)] } : ScanState).isProcessing = false ∧
      (6000 - 5000 < 3000 ∨
        participantCooldownActive [("p1", 5000)] "p1" 6000 = true)) ∧
    ((handleScannedUUID dbOk ⟨[], []⟩
        { initialScanState with
            lastScanTime := 5000,
            lastParticipantScanTime := [("p1", 5000)] } "p1" 6000 "n").store = ⟨[], []⟩ ∧
      (handleScannedUUID dbOk ⟨[], []⟩
        { initialScanState with
            lastScanTime := 5000,
            lastParticipantScanTime := [("p1", 5000)] } "p1" 6000 "n").state.lastScanTime
        = 5000 ∧
      (handleScannedUUID dbOk ⟨[], []⟩
        { initialScanState with
            lastScanTime := 5000,
            lastParticipantScanTime := [("p1", 5000)] }
          "p1" 6000 "n").state.lastParticipantScanTime = [("p1", 5000)] ∧
      ((handleScannedUUID dbOk ⟨[], []⟩
          { initialScanState with
              lastScanTime := 5000,
              lastParticipantScanTime := [("p1", 5000)] } "p1" 6000 "n").outcome
          = ScanOutcome.globalCooldown ∨
        (handleScannedUUID dbOk ⟨[], []⟩
          { initialScanState with
              lastScanTime := 5000,
              lastParticipantScanTime := [("p1", 5000)] } "p1" 6000 "n").outcome
          = ScanOutcome.participantCooldown)) :=
  ⟨⟨by decide, by decide⟩,
    c9_cooldown_rejection_frame ⟨[], []⟩
      { initialScanState with
          lastScanTime := 5000,
          lastParticipantScanTime := [("p1", 5000)] } "p1" 6000 "n"
      (by decide) (by decide)⟩

/-- C5 (bug in the earlier simple-variant scanner): at a concrete input, a
scan rejected by the global cooldown leaves `isProcessing = true` — the
flag set just before the guard is never cleared on that path — so a later
decode (here a full 994 seconds later) is discarded by the re-entrancy
guard and the scanner never processes again.  The current toggle variant
at the same input leaves the flag cleared. -/
theorem c5_cooldown_rejection_leaks_processing_flag :
    (handleScannedUUIDv1 dbOk ⟨[], []⟩
        { initialScanState with lastScanTime := 5000 }
        "p1" 6000 "n").state.isProcessing = true ∧
    (handleScannedUUIDv1 dbOk ⟨[], []⟩
        { initialScanState with lastScanTime := 5000 }
        "p1" 6000 "n").outcome = ScanOutcome.globalCooldown ∧
    (handleScannedUUIDv1 dbOk ⟨[], []⟩
        (handleScannedUUIDv1 dbOk ⟨[], []⟩
          { initialScanState with lastScanTime := 5000 } "p1" 6000 "n").state
        "p1" 1000000 "n2").outcome = ScanOutcome.discarded ∧
    (handleScannedUUID dbOk ⟨[], []⟩
        { initialScanState with lastScanTime := 5000 }
        "p1" 6000 "n").state.isProcessing = false := by
  decide

/-- C2 (toggle variant): a valid scan of a registered participant either
checks in or checks out and reports which to the user; with no open
attendance row a new open row is inserted; with an open row its check-out
is set to `now` and no row is added; and the at-most-one-open invariant is
preserved. -/
theorem c2_toggle_scan_invariant (store : Store) (s : ScanState)
    (uuid : String) (now : Nat) (newId : String) (participant : Participant)
    (hproc : s.isProcessing = false)
    (hglobal : ¬ (now - s.lastScanTime < 3000))
    (hpart : participantCooldownActive s.lastParticipantScanTime uuid now = false)
    (hfound : findParticipant store uuid = some participant) :
    ((handleScannedUUID dbOk store s uuid now newId).outcome
        = ScanOutcome.checkedIn participant.full_name ∨
      (handleScannedUUID dbOk store s uuid now newId).outcome
        = ScanOutcome.checkedOut participant.full_name) ∧
    (openRecords store uuid = [] →
      (handleScannedUUID dbOk store s uuid now newId).outcome
          = ScanOutcome.checkedIn participant.full_name ∧
      (handleScannedUUID dbOk store s uuid now newId).store.attendance
          = store.attendance ++ [⟨newId, uuid, now, none⟩]) ∧
    (∀ rec0 rest, openRecords store uuid = rec0 :: rest →
      (handleScannedUUID dbOk store s uuid now newId).outcome
          = ScanOutcome.checkedOut participant.full_name ∧
      { rec0 with check_out := some now }
          ∈ (handleScannedUUID dbOk store s uuid now newId).store.attendance ∧
      (handleScannedUUID dbOk store s uuid now newId).store.attendance.length
          = store.attendance.length) ∧
    (AtMostOneOpen store →
      AtMostOneOpen (handleScannedUUID dbOk store s uuid now newId).store) := by
  cases hor : openRecords store uuid with
  | nil =>
    refine ⟨Or.inl ?_, fun _ => ⟨?_, ?_⟩, ?_, ?_⟩
    · simp [handleScannedUUID, hproc, hglobal, hpart, hfound, dbOk, hor]
    · simp [handleScannedUUID, hproc, hglobal, hpart, hfound, dbOk, hor]
    · simp [handleScannedUUID, hproc, hglobal, hpart, hfound, dbOk, hor]
    · intro rec0 rest h
      simp at h
    · intro hinv
      have hres := atMostOneOpen_insert store uuid newId now hinv hor
      have hst : (handleScannedUUID dbOk store s uuid now newId).store
          = { store with attendance := store.attendance ++ [⟨newId, uuid, now, none⟩] } := by
        simp [handleScannedUUID, hproc, hglobal, hpart, hfound, dbOk, hor]
      rw [hst]
      exact hres
  | cons rec0 rest =>
    have hst : (handleScannedUUID dbOk store s uuid now newId).store
        = { store with
            attendance := store.attendance.map fun r =>
              if r.id == rec0.id then { r with check_out := some now } else r } := by
      simp [handleScannedUUID, hproc, hglobal, hpart, hfound, dbOk, hor]
    have hout : (handleScannedUUID dbOk store s uuid now newId).outcome
        = ScanOutcome.checkedOut participant.full_name := by
      simp [handleScannedUUID, hproc, hglobal, hpart, hfound, dbOk, hor]
    have hmem0 : rec0 ∈ store.attendance := by
      have h' : rec0 ∈ store.attendance.filter
          (fun r => r.participant_id == uuid && r.check_out.isNone) := by
        have hm : rec0 ∈ openRecords store uuid := by
          rw [hor]
          exact List.mem_cons_self _ _
        simpa [openRecords] using hm
      exact List.mem_of_mem_filter h'
    refine ⟨Or.inr hout, ?_, ?_, ?_⟩
    · intro h
      simp at h
    · intro rec0' rest' h
      obtain ⟨h1, h2⟩ := List.cons.inj h
      subst h1
      refine ⟨hout, ?_, ?_⟩
      · rw [hst]
        have hm := List.mem_map_of_mem
          (fun r => if r.id == rec0.id then { r with check_out := some now } else r) hmem0
        simpa using hm
      · rw [hst]
        simp
    · intro hinv
      rw [hst]
      exact atMostOneOpen_close store rec0.id now hinv

/-- Witness for C2 at a concrete input: first scan of registered `p1` with
an empty attendance table checks in. -/
theorem c2_toggle_scan_invariant_witness :
    (initialScanState.isProcessing = false ∧
      ¬ (5000 - initialScanState.lastScanTime < 3000) ∧
      participantCooldownActive initialScanState.lastParticipantScanTime "p1" 5000
        = false ∧
      findParticipant
          ⟨[⟨"p1", "Ana Gomez", "ana@example.com", none, none, "qr", 0⟩], []⟩ "p1"
        = some ⟨"p1", "Ana Gomez", "ana@example.com", none, none, "qr", 0⟩) ∧
    (handleScannedUUID dbOk
        ⟨[⟨"p1", "Ana Gomez", "ana@example.com", none, none, "qr", 0⟩], []⟩
        initialScanState "p1" 5000 "a1").outcome = ScanOutcome.checkedIn "Ana Gomez" :=
  ⟨⟨by decide, by decide, by decide, by decide⟩,
    ((c2_toggle_scan_invariant
        ⟨[⟨"p1", "Ana Gomez", "ana@example.com", none, none, "qr", 0⟩], []⟩
        initialScanState "p1" 5000 "a1"
        ⟨"p1", "Ana Gomez", "ana@example.com", none, none, "qr", 0⟩
        (by decide) (by decide) (by decide) (by decide)).2.1 (by decide)).1⟩

/-- C10 (toggle variant, more than one open row): the scan closes exactly
the first open row the limit-1 query returns — its check-out is set to
`now` — no row is inserted, and every other open row of the participant
stays open: the open rows shrink from `rec0 :: rec1 :: rest` to
`rec1 :: rest`. -/
theorem c10_multi_open_closes_first (store : Store) (s : ScanState)
    (uuid : String) (now : Nat) (newId : String) (participant : Participant)
    (rec0 rec1 : AttendanceRecord) (rest : List AttendanceRecord)
    (hproc : s.isProcessing = false)
    (hglobal : ¬ (now - s.lastScanTime < 3000))
    (hpart : participantCooldownActive s.lastParticipantScanTime uuid now = false)
    (hfound : findParticipant store uuid = some participant)
    (hopen : openRecords store uuid = rec0 :: rec1 :: rest)
    (hnd : (store.attendance.map fun r => r.id).Nodup) :
    (handleScannedUUID dbOk store s uuid now newId).outcome
      = ScanOutcome.checkedOut participant.full_name ∧
    (handleScannedUUID dbOk store s uuid now newId).store.attendance.length
      = store.attendance.length ∧
    { rec0 with check_out := some now }
      ∈ (handleScannedUUID dbOk store s uuid now newId).store.attendance ∧
    openRecords (handleScannedUUID dbOk store s uuid now newId).store uuid
      = rec1 :: rest := by
  have hst : (handleScannedUUID dbOk store s uuid now newId).store
      = { store with
          attendance := store.attendance.map fun r =>
            if r.id == rec0.id then { r with check_out := some now } else r } := by
    simp [handleScannedUUID, hproc, hglobal, hpart, hfound, dbOk, hopen]
  have hmem0 : rec0 ∈ store.attendance := by
    have h' : rec0 ∈ store.attendance.filter
        (fun r => r.participant_id == uuid && r.check_out.isNone) := by
      have hm : rec0 ∈ openRecords store uuid := by
        rw [hopen]
        exact List.mem_cons_self _ _
      simpa [openRecords] using hm
    exact List.mem_of_mem_filter h'
  refine ⟨?_, ?_, ?_, ?_⟩
  · simp [handleScannedUUID, hproc, hglobal, hpart, hfound, dbOk, hopen]
  · rw [hst]
    simp
  · rw [hst]
    have hm := List.mem_map_of_mem
      (fun r => if r.id == rec0.id then { r with check_out := some now } else r) hmem0
    simpa using hm
  · rw [hst]
    have hopen' : store.attendance.filter
        (fun r => r.participant_id == uuid && r.check_out.isNone)
        = rec0 :: rec1 :: rest := hopen
    exact filter_close_head uuid now rec0 store.attendance (rec1 :: rest) hnd hopen'

/-- Witness for C10 at a concrete input: `p1` has two open attendance
rows; scanning closes the first and leaves the second open. -/
theorem c10_multi_open_closes_first_witness :
    (initialScanState.isProcessing = false ∧
      ¬ (5000 - initialScanState.lastScanTime < 3000) ∧
      participantCooldownActive initialScanState.lastParticipantScanTime "p1" 5000
        = false ∧
      findParticipant
          ⟨[⟨"p1", "Ana Gomez", "ana@example.com", none, none, "qr", 0⟩],
            [⟨"a1", "p1", 100, none⟩, ⟨"a2", "p1", 200, none⟩]⟩ "p1"
        = some ⟨"p1", "Ana Gomez", "ana@example.com", none, none, "qr", 0⟩ ∧
      openRecords
          ⟨[⟨"p1", "Ana Gomez", "ana@example.com", none, none, "qr", 0⟩],
            [⟨"a1", "p1", 100, none⟩, ⟨"a2", "p1", 200, none⟩]⟩ "p1"
        = [⟨"a1", "p1", 100, none⟩, ⟨"a2", "p1", 200, none⟩]) ∧
    ((handleScannedUUID dbOk
        ⟨[⟨"p1", "Ana Gomez", "ana@example.com", none, none, "qr", 0⟩],
          [⟨"a1", "p1", 100, none⟩, ⟨"a2", "p1", 200, none⟩]⟩
        initialScanState "p1" 5000 "n").outcome = ScanOutcome.checkedOut "Ana Gomez" ∧
      openRecords (handleScannedUUID dbOk
          ⟨[⟨"p1", "Ana Gomez", "ana@example.com", none, none, "qr", 0⟩],
            [⟨"a1", "p1", 100, none⟩, ⟨"a2", "p1", 200, none⟩]⟩
          initialScanState "p1" 5000 "n").store "p1" = [⟨"a2", "p1", 200, none⟩]) :=
  ⟨⟨by decide, by decide, by decide, by decide, by decide⟩,
    (c10_multi_open_closes_first
      ⟨[⟨"p1", "Ana Gomez", "ana@example.com", none, none, "qr", 0⟩],
        [⟨"a1", "p1", 100, none⟩, ⟨"a2", "p1", 200, none⟩]⟩
      initialScanState "p1" 5000 "n"
      ⟨"p1", "Ana Gomez", "ana@example.com", none, none, "qr", 0⟩
      ⟨"a1", "p1", 100, none⟩ ⟨"a2", "p1", 200, none⟩ []
      (by decide) (by decide) (by decide) (by decide) (by decide) (by decide)).1,
    (c10_multi_open_closes_first
      ⟨[⟨"p1", "Ana Gomez", "ana@example.com", none, none, "qr", 0⟩],
        [⟨"a1", "p1", 100, none⟩, ⟨"a2", "p1", 200, none⟩]⟩
      initialScanState "p1" 5000 "n"
      ⟨"p1", "Ana Gomez", "ana@example.com", none, none, "qr", 0⟩
      ⟨"a1", "p1", 100, none⟩ ⟨"a2", "p1", 200, none⟩ []
      (by decide) (by decide) (by decide) (by decide) (by decide) (by decide)).2.2.2⟩

/-- Inversion of a successful scan: a run that reported check-in or
check-out updated the global last-scan time to `now`, wrote `now` into the
per-participant map, left the processing flag clear, ran at `now ≥ 3000`
(it passed the global guard), and on check-in appended exactly the one new
open row. -/
theorem scan_success_state (store : Store) (s : ScanState) (uuid : String)
    (now : Nat) (newId : String) (name : String)
    (h : (handleScannedUUID dbOk store s uuid now newId).outcome
        = ScanOutcome.checkedIn name ∨
      (handleScannedUUID dbOk store s uuid now newId).outcome
        = ScanOutcome.checkedOut name) :
    (handleScannedUUID dbOk store s uuid now newId).state.isProcessing = false ∧
    (handleScannedUUID dbOk store s uuid now newId).state.lastScanTime = now ∧
    (handleScannedUUID dbOk store s uuid now newId).state.lastParticipantScanTime
      = setKey s.lastParticipantScanTime uuid now ∧
    3000 ≤ now ∧
    ((handleScannedUUID dbOk store s uuid now newId).outcome
        = ScanOutcome.checkedIn name →
      (handleScannedUUID dbOk store s uuid now newId).store.attendance
        = store.attendance ++ [⟨newId, uuid, now, none⟩]) := by
  by_cases h1 : s.isProcessing = true
  · simp [handleScannedUUID, h1] at h
  · by_cases h2 : now - s.lastScanTime < 3000
    · simp [handleScannedUUID, h1, h2] at h
    · by_cases h3 : participantCooldownActive s.lastParticipantScanTime uuid now = true
      · simp [handleScannedUUID, h1, h2, h3] at h
      · have hnow : 3000 ≤ now := by omega
        cases hfp : findParticipant store uuid with
        | none => simp [handleScannedUUID, h1, h2, h3, hfp, dbOk] at h
        | some participant =>
          cases hor : openRecords store uuid with
          | nil =>
            refine ⟨?_, ?_, ?_, hnow, fun _ => ?_⟩ <;>
              simp [handleScannedUUID, h1, h2, h3, hfp, dbOk, hor]
          | cons rec0 rest =>
            refine ⟨?_, ?_, ?_, hnow, fun hco => ?_⟩
            · simp [handleScannedUUID, h1, h2, h3, hfp, dbOk, hor]
            · simp [handleScannedUUID, h1, h2, h3, hfp, dbOk, hor]
            · simp [handleScannedUUID, h1, h2, h3, hfp, dbOk, hor]
            · simp [handleScannedUUID, h1, h2, h3, hfp, dbOk, hor] at hco

/-- C3 counterexample: `p1` is checked in at `now = 5000`; a second scan of
the same identifier at `6000` — well inside the 30-second participant
window — is rejected by the 3-second global cooldown *silently*: no
"recently scanned" warning is shown, contrary to the claim. -/
theorem c3_silent_rejection_counterexample :
    (handleScannedUUID dbOk
        ⟨[⟨"p1", "Ana Gomez", "ana@example.com", none, none, "qr", 0⟩], []⟩
        initialScanState "p1" 5000 "a1").outcome = ScanOutcome.checkedIn "Ana Gomez" ∧
    6000 - 5000 < 30000 ∧
    showsRecentScanWarning
      (handleScannedUUID dbOk
        (handleScannedUUID dbOk
          ⟨[⟨"p1", "Ana Gomez", "ana@example.com", none, none, "qr", 0⟩], []⟩
          initialScanState "p1" 5000 "a1").store
        (handleScannedUUID dbOk
          ⟨[⟨"p1", "Ana Gomez", "ana@example.com", none, none, "qr", 0⟩], []⟩
          initialScanState "p1" 5000 "a1").state "p1" 6000 "a2").outcome = false ∧
    (handleScannedUUID dbOk
        (handleScannedUUID dbOk
          ⟨[⟨"p1", "Ana Gomez", "ana@example.com", none, none, "qr", 0⟩], []⟩
          initialScanState "p1" 5000 "a1").store
        (handleScannedUUID dbOk
          ⟨[⟨"p1", "Ana Gomez", "ana@example.com", none, none, "qr", 0⟩], []⟩
          initialScanState "p1" 5000 "a1").state "p1" 6000 "a2").outcome
      = ScanOutcome.globalCooldown := by
  decide

/-- C3 (amended): after a successfully processed scan at `now1`, a second
scan of the same identifier at `now2` within the 30-second participant
window writes nothing; it is rejected with the "recently scanned" warning
when at least 3 seconds have passed, and silently by the global cooldown
when less than 3 seconds have passed. -/
theorem c3_second_scan_within_window (store : Store) (s : ScanState)
    (uuid : String) (now1 now2 : Nat) (newId1 newId2 : String) (name : String)
    (hsucc : (handleScannedUUID dbOk store s uuid now1 newId1).outcome
        = ScanOutcome.checkedIn name ∨
      (handleScannedUUID dbOk store s uuid now1 newId1).outcome
        = ScanOutcome.checkedOut name)
    (hgap : now2 - now1 < 30000) :
    (handleScannedUUID dbOk
        (handleScannedUUID dbOk store s uuid now1 newId1).store
        (handleScannedUUID dbOk store s uuid now1 newId1).state uuid now2 newId2).store
      = (handleScannedUUID dbOk store s uuid now1 newId1).store ∧
    (3000 ≤ now2 - now1 →
      (handleScannedUUID dbOk
          (handleScannedUUID dbOk store s uuid now1 newId1).store
          (handleScannedUUID dbOk store s uuid now1 newId1).state uuid now2 newId2).outcome
        = ScanOutcome.participantCooldown) ∧
    (now2 - now1 < 3000 →
      (handleScannedUUID dbOk
          (handleScannedUUID dbOk store s uuid now1 newId1).store
          (handleScannedUUID dbOk store s uuid now1 newId1).state uuid now2 newId2).outcome
        = ScanOutcome.globalCooldown) := by
  obtain ⟨hip, hlst, hmap, hnow, -⟩ :=
    scan_success_state store s uuid now1 newId1 name hsucc
  set r1 := handleScannedUUID dbOk store s uuid now1 newId1 with hr1
  by_cases hg2 : now2 - now1 < 3000
  · have hlt : now2 - r1.state.lastScanTime < 3000 := by
      rw [hlst]
      exact hg2
    refine ⟨?_, fun hge => absurd hg2 (by omega), fun _ => ?_⟩
    · simp [handleScannedUUID, hip, hlt]
    · simp [handleScannedUUID, hip, hlt]
  · have hng : ¬ (now2 - r1.state.lastScanTime < 3000) := by
      rw [hlst]
      exact hg2
    have h0 : now1 ≠ 0 := by omega
    have hpca : participantCooldownActive r1.state.lastParticipantScanTime
        uuid now2 = true := by
      rw [hmap]
      simp [participantCooldownActive, lookup_setKey_self, h0, hgap]
    refine ⟨?_, fun _ => ?_, fun hlt => absurd hlt hg2⟩
    · simp [handleScannedUUID, hip, hng, hpca]
    · simp [handleScannedUUID, hip, hng, hpca]

/-- Witness for C3 (amended) at a concrete input: second scan 4 seconds
after the first draws the recently-scanned warning. -/
theorem c3_second_scan_within_window_witness :
    (((handleScannedUUID dbOk
          ⟨[⟨"p1", "Ana Gomez", "ana@example.com", none, none, "qr", 0⟩], []⟩
          initialScanState "p1" 5000 "a1").outcome = ScanOutcome.checkedIn "Ana Gomez" ∨
        (handleScannedUUID dbOk
          ⟨[⟨"p1", "Ana Gomez", "ana@example.com", none, none, "qr", 0⟩], []⟩
          initialScanState "p1" 5000 "a1").outcome
          = ScanOutcome.checkedOut "Ana Gomez") ∧
      9000 - 5000 < 30000 ∧ 3000 ≤ 9000 - 5000) ∧
    (handleScannedUUID dbOk
        (handleScannedUUID dbOk
          ⟨[⟨"p1", "Ana Gomez", "ana@example.com", none, none, "qr", 0⟩], []⟩
          initialScanState "p1" 5000 "a1").store
        (handleScannedUUID dbOk
          ⟨[⟨"p1", "Ana Gomez", "ana@example.com", none, none, "qr", 0⟩], []⟩
          initialScanState "p1" 5000 "a1").state "p1" 9000 "a2").outcome
      = ScanOutcome.participantCooldown :=
  ⟨⟨Or.inl (by decide), by decide, by decide⟩,
    (c3_second_scan_within_window
      ⟨[⟨"p1", "Ana Gomez", "ana@example.com", none, none, "qr", 0⟩], []⟩
      initialScanState "p1" 5000 9000 "a1" "a2" "Ana Gomez"
      (Or.inl (by decide)) (by decide)).2.1 (by decide)⟩

/-- C4 counterexample: two scans of registered `p2` 1.5 seconds apart.
Exactly one attendance row is created — but *zero* "recent scan" warnings
are shown, not one: the second scan is silently swallowed by the 3-second
global cooldown. -/
theorem c4_one_record_zero_warnings_counterexample :
    (handleScannedUUID dbOk
        ⟨[⟨"p2", "Luis Mora", "luis@example.com", none, none, "qr", 0⟩], []⟩
        initialScanState "p2" 4000 "b1").outcome = ScanOutcome.checkedIn "Luis Mora" ∧
    5500 - 4000 ≤ 2000 ∧
    (handleScannedUUID dbOk
        ⟨[⟨"p2", "Luis Mora", "luis@example.com", none, none, "qr", 0⟩], []⟩
        initialScanState "p2" 4000 "b1").store.attendance.length = 1 ∧
    (handleScannedUUID dbOk
        (handleScannedUUID dbOk
          ⟨[⟨"p2", "Luis Mora", "luis@example.com", none, none, "qr", 0⟩], []⟩
          initialScanState "p2" 4000 "b1").store
        (handleScannedUUID dbOk
          ⟨[⟨"p2", "Luis Mora", "luis@example.com", none, none, "qr", 0⟩], []⟩
          initialScanState "p2" 4000 "b1").state "p2" 5500 "b2").store
      = (handleScannedUUID dbOk
          ⟨[⟨"p2", "Luis Mora", "luis@example.com", none, none, "qr", 0⟩], []⟩
          initialScanState "p2" 4000 "b1").store ∧
    showsRecentScanWarning
      (handleScannedUUID dbOk
        ⟨[⟨"p2", "Luis Mora", "luis@example.com", none, none, "qr", 0⟩], []⟩
        initialScanState "p2" 4000 "b1").outcome = false ∧
    showsRecentScanWarning
      (handleScannedUUID dbOk
        (handleScannedUUID dbOk
          ⟨[⟨"p2", "Luis Mora", "luis@example.com", none, none, "qr", 0⟩], []⟩
          initialScanState "p2" 4000 "b1").store
        (handleScannedUUID dbOk
          ⟨[⟨"p2", "Luis Mora", "luis@example.com", none, none, "qr", 0⟩], []⟩
          initialScanState "p2" 4000 "b1").state "p2" 5500 "b2").outcome = false := by
  decide

/-- C4 (amended): for two scans of the same registered identifier within 2
seconds where the first checks in, exactly one attendance row is created
and the second scan is silently discarded by the global cooldown — no
warning of any kind is shown for it. -/
theorem c4_rapid_rescan_one_record (store : Store) (s : ScanState)
    (uuid : String) (now1 now2 : Nat) (newId1 newId2 : String) (name : String)
    (hfirst : (handleScannedUUID dbOk store s uuid now1 newId1).outcome
        = ScanOutcome.checkedIn name)
    (hgap : now2 - now1 ≤ 2000) :
    (handleScannedUUID dbOk store s uuid now1 newId1).store.attendance.length
      = store.attendance.length + 1 ∧
    (handleScannedUUID dbOk
        (handleScannedUUID dbOk store s uuid now1 newId1).store
        (handleScannedUUID dbOk store s uuid now1 newId1).state uuid now2 newId2).store
      = (handleScannedUUID dbOk store s uuid now1 newId1).store ∧
    (handleScannedUUID dbOk
        (handleScannedUUID dbOk store s uuid now1 newId1).store
        (handleScannedUUID dbOk store s uuid now1 newId1).state uuid now2 newId2).outcome
      = ScanOutcome.globalCooldown ∧
    showsRecentScanWarning
      (handleScannedUUID dbOk store s uuid now1 newId1).outcome = false ∧
    showsRecentScanWarning
      (handleScannedUUID dbOk
        (handleScannedUUID dbOk store s uuid now1 newId1).store
        (handleScannedUUID dbOk store s uuid now1 newId1).state uuid now2 newId2).outcome
      = false := by
  obtain ⟨hip, hlst, -, -, hatt⟩ :=
    scan_success_state store s uuid now1 newId1 name (Or.inl hfirst)
  have hattEq := hatt hfirst
  set r1 := handleScannedUUID dbOk store s uuid now1 newId1 with hr1
  have hlt : now2 - r1.state.lastScanTime < 3000 := by
    rw [hlst]
    omega
  have hout2 : (handleScannedUUID dbOk r1.store r1.state uuid now2 newId2).outcome
      = ScanOutcome.globalCooldown := by
    simp [handleScannedUUID, hip, hlt]
  refine ⟨by rw [hattEq]; simp, ?_, hout2, ?_, ?_⟩
  · simp [handleScannedUUID, hip, hlt]
  · rw [hfirst]
    rfl
  · rw [hout2]
    rfl

/-- Witness for C4 (amended) at a concrete input: scans of `p3` at 7000 and
8500 milliseconds. -/
theorem c4_rapid_rescan_one_record_witness :
    ((handleScannedUUID dbOk
        ⟨[⟨"p3", "Eva Ruiz", "eva@example.com", none, none, "qr", 0⟩], []⟩
        initialScanState "p3" 7000 "c1").outcome = ScanOutcome.checkedIn "Eva Ruiz" ∧
      8500 - 7000 ≤ 2000) ∧
    ((handleScannedUUID dbOk
        ⟨[⟨"p3", "Eva Ruiz", "eva@example.com", none, none, "qr", 0⟩], []⟩
        initialScanState "p3" 7000 "c1").store.attendance.length
      = ([] : List AttendanceRecord).length + 1 ∧
    (handleScannedUUID dbOk
        (handleScannedUUID dbOk
          ⟨[⟨"p3", "Eva Ruiz", "eva@example.com", none, none, "qr", 0⟩], []⟩
          initialScanState "p3" 7000 "c1").store
        (handleScannedUUID dbOk
          ⟨[⟨"p3", "Eva Ruiz", "eva@example.com", none, none, "qr", 0⟩], []⟩
          initialScanState "p3" 7000 "c1").state "p3" 8500 "c2").store
      = (handleScannedUUID dbOk
          ⟨[⟨"p3", "Eva Ruiz", "eva@example.com", none, none, "qr", 0⟩], []⟩
          initialScanState "p3" 7000 "c1").store ∧
    (handleScannedUUID dbOk
        (handleScannedUUID dbOk
          ⟨[⟨"p3", "Eva Ruiz", "eva@example.com", none, none, "qr", 0⟩], []⟩
          initialScanState "p3" 7000 "c1").store
        (handleScannedUUID dbOk
          ⟨[⟨"p3", "Eva Ruiz", "eva@example.com", none, none, "qr", 0⟩], []⟩
          initialScanState "p3" 7000 "c1").state "p3" 8500 "c2").outcome
      = ScanOutcome.globalCooldown ∧
    showsRecentScanWarning
      (handleScannedUUID dbOk
        ⟨[⟨"p3", "Eva Ruiz", "eva@example.com", none, none, "qr", 0⟩], []⟩
        initialScanState "p3" 7000 "c1").outcome = false ∧
    showsRecentScanWarning
      (handleScannedUUID dbOk
        (handleScannedUUID dbOk
          ⟨[⟨"p3", "Eva Ruiz", "eva@example.com", none, none, "qr", 0⟩], []⟩
          initialScanState "p3" 7000 "c1").store
        (handleScannedUUID dbOk
          ⟨[⟨"p3", "Eva Ruiz", "eva@example.com", none, none, "qr", 0⟩], []⟩
          initialScanState "p3" 7000 "c1").state "p3" 8500 "c2").outcome = false) :=
  ⟨⟨by decide, by decide⟩,
    c4_rapid_rescan_one_record
      ⟨[⟨"p3", "Eva Ruiz", "eva@example.com", none, none, "qr", 0⟩], []⟩
      initialScanState "p3" 7000 8500 "c1" "c2" "Eva Ruiz"
      (by decide) (by decide)⟩

/-- C6: a database error while validating the scanned participant or while
writing the attendance row is caught and reported to the user as an
error-variant message, the store is unmodified, the per-participant
cooldown map is untouched, and the global last-scan time is either
untouched or — exactly on the returned-validation-error path, which the
code reports as an invalid code — set to the attempt time, the recording
step 3 of the spec's algorithm prescribes for a failed lookup. -/
theorem c6_db_error_safe (store : Store) (s : ScanState) (uuid : String)
    (now : Nat) (newId : String) (fault : DbFault)
    (hproc : s.isProcessing = false)
    (hglobal : ¬ (now - s.lastScanTime < 3000))
    (hpart : participantCooldownActive s.lastParticipantScanTime uuid now = false)
    (hreach : faultReached store uuid fault) :
    reportsError (handleScannedUUID (injectFault fault) store s uuid now newId).outcome
      = true ∧
    (handleScannedUUID (injectFault fault) store s uuid now newId).store = store ∧
    (handleScannedUUID (injectFault fault) store s uuid now
        newId).state.lastParticipantScanTime = s.lastParticipantScanTime ∧
    ((handleScannedUUID (injectFault fault) store s uuid now newId).state.lastScanTime
        = s.lastScanTime ∨
      ((handleScannedUUID (injectFault fault) store s uuid now newId).outcome
          = ScanOutcome.invalidCode ∧
        (handleScannedUUID (injectFault fault) store s uuid now newId).state.lastScanTime
          = now)) := by
  cases fault with
  | pThrow =>
    refine ⟨?_, ?_, ?_, Or.inl ?_⟩ <;>
      simp [handleScannedUUID, injectFault, dbOk, hproc, hglobal, hpart, reportsError]
  | pErr =>
    cases hfp : findParticipant store uuid with
    | none =>
      refine ⟨?_, ?_, ?_, Or.inr ⟨?_, ?_⟩⟩ <;>
        simp [handleScannedUUID, injectFault, dbOk, hproc, hglobal, hpart, hfp,
          reportsError]
    | some p =>
      refine ⟨?_, ?_, ?_, Or.inr ⟨?_, ?_⟩⟩ <;>
        simp [handleScannedUUID, injectFault, dbOk, hproc, hglobal, hpart, hfp,
          reportsError]
  | lThrow =>
    simp only [faultReached] at hreach
    obtain ⟨p, hp⟩ := Option.isSome_iff_exists.mp hreach
    refine ⟨?_, ?_, ?_, Or.inl ?_⟩ <;>
      simp [handleScannedUUID, injectFault, dbOk, hproc, hglobal, hpart, hp,
        reportsError]
  | uThrow =>
    simp only [faultReached] at hreach
    obtain ⟨hsome, hne⟩ := hreach
    obtain ⟨p, hp⟩ := Option.isSome_iff_exists.mp hsome
    cases hor : openRecords store uuid with
    | nil => exact absurd hor hne
    | cons rec0 rest =>
      refine ⟨?_, ?_, ?_, Or.inl ?_⟩ <;>
        simp [handleScannedUUID, injectFault, dbOk, hproc, hglobal, hpart, hp, hor,
          reportsError]
  | uErr =>
    simp only [faultReached] at hreach
    obtain ⟨hsome, hne⟩ := hreach
    obtain ⟨p, hp⟩ := Option.isSome_iff_exists.mp hsome
    cases hor : openRecords store uuid with
    | nil => exact absurd hor hne
    | cons rec0 rest =>
      refine ⟨?_, ?_, ?_, Or.inl ?_⟩ <;>
        simp [handleScannedUUID, injectFault, dbOk, hproc, hglobal, hpart, hp, hor,
          reportsError]
  | iThrow =>
    simp only [faultReached] at hreach
    obtain ⟨hsome, hemp⟩ := hreach
    obtain ⟨p, hp⟩ := Option.isSome_iff_exists.mp hsome
    refine ⟨?_, ?_, ?_, Or.inl ?_⟩ <;>
      simp [handleScannedUUID, injectFault, dbOk, hproc, hglobal, hpart, hp, hemp,
        reportsError]
  | iErr =>
    simp only [faultReached] at hreach
    obtain ⟨hsome, hemp⟩ := hreach
    obtain ⟨p, hp⟩ := Option.isSome_iff_exists.mp hsome
    refine ⟨?_, ?_, ?_, Or.inl ?_⟩ <;>
      simp [handleScannedUUID, injectFault, dbOk, hproc, hglobal, hpart, hp, hemp,
        reportsError]

/-- Witness for C6 at a concrete input: the attendance insert for
registered `p1` returns an error. -/
theorem c6_db_error_safe_witness :
    (initialScanState.isProcessing = false ∧
      ¬ (5000 - initialScanState.lastScanTime < 3000) ∧
      participantCooldownActive initialScanState.lastParticipantScanTime "p1" 5000
        = false ∧
      faultReached
        ⟨[⟨"p1", "Ana Gomez", "ana@example.com", none, none, "qr", 0⟩], []⟩ "p1"
        DbFault.iErr) ∧
    (reportsError (handleScannedUUID (injectFault DbFault.iErr)
        ⟨[⟨"p1", "Ana Gomez", "ana@example.com", none, none, "qr", 0⟩], []⟩
        initialScanState "p1" 5000 "n").outcome = true ∧
      (handleScannedUUID (injectFault DbFault.iErr)
        ⟨[⟨"p1", "Ana Gomez", "ana@example.com", none, none, "qr", 0⟩], []⟩
        initialScanState "p1" 5000 "n").store
        = ⟨[⟨"p1", "Ana Gomez", "ana@example.com", none, none, "qr", 0⟩], []⟩ ∧
      (handleScannedUUID (injectFault DbFault.iErr)
        ⟨[⟨"p1", "Ana Gomez", "ana@example.com", none, none, "qr", 0⟩], []⟩
        initialScanState "p1" 5000 "n").state.lastParticipantScanTime
        = initialScanState.lastParticipantScanTime ∧
      ((handleScannedUUID (injectFault DbFault.iErr)
          ⟨[⟨"p1", "Ana Gomez", "ana@example.com", none, none, "qr", 0⟩], []⟩
          initialScanState "p1" 5000 "n").state.lastScanTime
          = initialScanState.lastScanTime ∨
        ((handleScannedUUID (injectFault DbFault.iErr)
            ⟨[⟨"p1", "Ana Gomez", "ana@example.com", none, none, "qr", 0⟩], []⟩
            initialScanState "p1" 5000 "n").outcome = ScanOutcome.invalidCode ∧
          (handleScannedUUID (injectFault DbFault.iErr)
            ⟨[⟨"p1", "Ana Gomez", "ana@example.com", none, none, "qr", 0⟩], []⟩
            initialScanState "p1" 5000 "n").state.lastScanTime = 5000))) :=
  ⟨⟨by decide, by decide, by decide, by decide⟩,
    c6_db_error_safe
      ⟨[⟨"p1", "Ana Gomez", "ana@example.com", none, none, "qr", 0⟩], []⟩
      initialScanState "p1" 5000 "n" DbFault.iErr
      (by decide) (by decide) (by decide) (by decide)⟩

/-- C7: when the participant row is persisted and email delivery then
fails, the registration still succeeds: the outcome is the
success-with-warning toast (default variant, not destructive), the QR data
URL and participant are shown to the user, and the row is in the store. -/
theorem c7_email_failure_nonfatal (store : Store) (form : RegForm)
    (participantId : String) (now : Nat) :
    (onSubmit store form participantId now true false).outcome
      = RegOutcome.emailFailWarning ∧
    (onSubmit store form participantId now true false).toastDestructive = false ∧
    (onSubmit store form participantId now true false).qrCodeUrl
      = some (qrToDataURL participantId) ∧
    (onSubmit store form participantId now true false).participantData.isSome = true ∧
    ∃ p ∈ (onSubmit store form participantId now true false).store.participants,
      p.id = participantId := by
  refine ⟨rfl, rfl, rfl, rfl, ?_⟩
  exact ⟨{ id := participantId,
           full_name := form.fullName,
           email := form.email,
           phone := jsOrNull form.phone,
           organization := jsOrNull form.organization,
           qr_code := qrToDataURL participantId,
           created_at := now },
    List.mem_append_right _ (List.mem_singleton.mpr rfl), rfl⟩

/-- C8: a valid registration (non-empty name, format-valid email) whose
insert succeeds leaves a participant row keyed by the fresh identifier,
holding the submitted name, email, optional phone and organization (empty
strings coalesced to null as in the source), and the non-empty QR data URL
encoding the identifier; freshness makes the key unique in the table. -/
theorem c8_valid_registration_row (store : Store) (form : RegForm)
    (participantId : String) (now : Nat) (emailOk : Bool)
    (hname : form.fullName ≠ "")
    (hemail : emailFormatValid form.email = true)
    (hfresh : ∀ p ∈ store.participants, p.id ≠ participantId) :
    ({ id := participantId, full_name := form.fullName, email := form.email,
        phone := jsOrNull form.phone, organization := jsOrNull form.organization,
        qr_code := qrToDataURL participantId, created_at := now } : Participant)
      ∈ (onSubmit store form participantId now true emailOk).store.participants ∧
    ((onSubmit store form participantId now true emailOk).store.participants.filter
        fun p => p.id == participantId).length = 1 ∧
    qrToDataURL participantId ≠ "" := by
  have hpart : (onSubmit store form participantId now true emailOk).store.participants
      = store.participants ++
        [{ id := participantId, full_name := form.fullName, email := form.email,
           phone := jsOrNull form.phone, organization := jsOrNull form.organization,
           qr_code := qrToDataURL participantId, created_at := now }] := by
    cases emailOk <;> simp [onSubmit]
  refine ⟨?_, ?_, ?_⟩
  · rw [hpart]
    exact List.mem_append_right _ (List.mem_singleton.mpr rfl)
  · rw [hpart, List.filter_append]
    have h1 : store.participants.filter (fun p => p.id == participantId) = [] := by
      rw [List.filter_eq_nil_iff]
      intro p hp
      simpa using hfresh p hp
    rw [h1]
    simp
  · intro h
    have hlen := congrArg String.length h
    rw [qrToDataURL, String.length_append] at hlen
    have h23 : "data:image/png;base64,".length = 22 := by decide
    have h0 : "".length = 0 := by decide
    omega

/-- Witness for C8 at a concrete input: Ana Gomez registers into an empty
store with a fresh identifier. -/
theorem c8_valid_registration_row_witness :
    ((⟨"Ana Gomez", "ana@example.com", some "5551234", none⟩ : RegForm).fullName
        ≠ "" ∧
      emailFormatValid
        (⟨"Ana Gomez", "ana@example.com", some "5551234", none⟩ : RegForm).email
        = true ∧
      ∀ p ∈ (⟨[], []⟩ : Store).participants, p.id ≠ "u1") ∧
    (({ id := "u1", full_name := "Ana Gomez", email := "ana@example.com",
        phone := jsOrNull (some "5551234"), organization := jsOrNull none,
        qr_code := qrToDataURL "u1", created_at := 42 } : Participant)
      ∈ (onSubmit ⟨[], []⟩ ⟨"Ana Gomez", "ana@example.com", some "5551234", none⟩
          "u1" 42 true true).store.participants ∧
    ((onSubmit ⟨[], []⟩ ⟨"Ana Gomez", "ana@example.com", some "5551234", none⟩
          "u1" 42 true true).store.participants.filter
        fun p => p.id == "u1").length = 1 ∧
    qrToDataURL "u1" ≠ "") :=
  ⟨⟨by decide, by decide, by decide⟩,
    c8_valid_registration_row ⟨[], []⟩
      ⟨"Ana Gomez", "ana@example.com", some "5551234", none⟩ "u1" 42 true
      (by decide) (by decide) (by decide)⟩

end HospitalCheckin
